import Mathlib

/-!
Verification of the pinout catalog and renderer of `pinout_generator.py`
(flipperzero-diy-agent).

The module under study holds a static 18-entry GPIO pin catalog, one
connection profile per connection type (UART, FTDI, DIRECT, USB), and pure
formatting functions that render boxed ASCII pinouts, wiring diagrams, a
full pin reference, and a small command-line front end.

Every definition below is a direct shallow embedding of the corresponding
Python definition: Python dicts (which preserve insertion order) become
ordered association lists, Python `str` formatting idioms (`<`, `^`, `2d`,
`ljust`, `center`, `*`, `join`) become explicit Lean string functions with
the same semantics, raising `ValueError` becomes `Except.error`, and
`Optional[str]` becomes `Option String`.
-/

/-- A run of `n` spaces, the padding character of all format specs used by
the source. -/
def spaces (n : Nat) : String := String.mk (List.replicate n ' ')

/-- Python left-justify: `f"{s:<w}"` / `s.ljust(w)` — pad on the right with
spaces up to width `w`, never truncate. -/
def pyLJust (s : String) (w : Nat) : String := s ++ spaces (w - s.length)

/-- Python right-justify: `f"{s:>w}"` and the numeric spec `f"{n:2d}"` —
pad on the left with spaces up to width `w`. -/
def pyRJust (s : String) (w : Nat) : String := spaces (w - s.length) ++ s

/-- Python format-spec centering `f"{s:^w}"`: total padding `w - len s`,
half of it (rounded down) on the left, the rest on the right. -/
def pyCenter (s : String) (w : Nat) : String :=
  spaces ((w - s.length) / 2) ++ s ++ spaces (w - s.length - (w - s.length) / 2)

/-- Python `str.center(w)` (CPython rule: the left margin additionally gets
one extra space when both the margin and `w` are odd). -/
def pyStrCenter (s : String) (w : Nat) : String :=
  spaces ((w - s.length) / 2 + ((w - s.length) &&& w &&& 1)) ++ s ++
    spaces ((w - s.length) - ((w - s.length) / 2 + ((w - s.length) &&& w &&& 1)))

/-- Python string repetition `s * n`. -/
def strRepeat (s : String) (n : Nat) : String := String.join (List.replicate n s)

/-- Python `str.lower()` on the ASCII range (the only range the CLI keywords
use); maps each character with `Char.toLower`. -/
def pyLower (s : String) : String := String.mk (s.data.map Char.toLower)

/-- Python `str.upper()` on the ASCII range; maps each character with
`Char.toUpper`. -/
def pyUpper (s : String) : String := String.mk (s.data.map Char.toUpper)

/-- Python `"\n".join(lines)`. -/
def joinLines : List String → String
  | [] => ""
  | [l] => l
  | l :: ls => l ++ "\n" ++ joinLines ls

/-- Python `", ".join(items)`. -/
def commaJoin : List String → String
  | [] => ""
  | [s] => s
  | s :: ss => s ++ ", " ++ commaJoin ss

/-- `ContainsSubstr s t` states that `t` occurs contiguously inside `s`
(Python's `t in s`), expressed as a list-infix fact on the character data. -/
def ContainsSubstr (s t : String) : Prop := t.data <:+: s.data

instance (s t : String) : Decidable (ContainsSubstr s t) :=
  inferInstanceAs (Decidable (t.data <:+: s.data))

/-- The enum `ConnectionType` of the source, a closed four-variant set. -/
inductive ConnectionType where
  | UART
  | FTDI
  | DIRECT
  | USB
deriving DecidableEq

/-- The `value` payload of each `ConnectionType` member. -/
def ConnectionType.value : ConnectionType → String
  | .UART => "uart"
  | .FTDI => "ftdi"
  | .DIRECT => "direct"
  | .USB => "usb"

/-- The members of `ConnectionType` in definition order (Python enum
iteration order). -/
def ConnectionType.all : List ConnectionType := [.UART, .FTDI, .DIRECT, .USB]

/-- Python `ConnectionType(s)`: the member whose `value` equals `s`, or a
`ValueError` (modelled as `none`) when no member matches. -/
def ConnectionType.fromValue (s : String) : Option ConnectionType :=
  ConnectionType.all.find? (fun c => c.value == s)

/-- A key of a profile's `pins` dict: either a physical integer pin index or
a named logical pin (the source stores both kinds of key in one dict and
distinguishes them with `isinstance(pin, int)`). -/
inductive PinRef where
  | intPin (n : Int)
  | namedPin (s : String)
deriving DecidableEq

/-- A value passed to the render operations in place of a `ConnectionType`:
either a genuine member, or (Python being dynamically typed) any other value
`other v`, which misses every key of the config dict. -/
inductive PySel where
  | ct (c : ConnectionType)
  | other (v : String)

/-- The static pin catalog `self.flipper_gpio_pins`, an insertion-ordered
dict from physical pin index to label. -/
def flipper_gpio_pins : List (Int × String) :=
  [(1, "VCC (3.3V)"),
   (2, "PA7 (SPI_MOSI)"),
   (3, "PA6 (SPI_MISO)"),
   (4, "PA4 (SPI_SCK)"),
   (5, "PB3 (SPI_CS)"),
   (6, "PB2 (USART_TX)"),
   (7, "PC3 (USART_RX)"),
   (8, "PC1 (GPIO)"),
   (9, "PC0 (GPIO)"),
   (10, "PB8 (I2C_SCL)"),
   (11, "PB9 (I2C_SDA)"),
   (12, "PA15 (GPIO)"),
   (13, "PA14 (SWCLK)"),
   (14, "PA13 (SWDIO)"),
   (15, "RESET"),
   (16, "GND"),
   (17, "3V3 (Power Out)"),
   (18, "5V (USB Power)")]

/-- Python `dict.get(k)` on an insertion-ordered association list with
unique keys. -/
def dictGet (l : List (Int × String)) (k : Int) : Option String :=
  (l.find? (fun p => p.1 == k)).map (fun p => p.2)

/-- One entry of `self.connection_configs`: the ordered `pins` dict, the
`description`, and the optional metadata keys, present exactly when the
Python dict carries them. -/
structure ConnectionConfig where
  pins : List (PinRef × String)
  description : String
  baudrate : Option String
  voltage : Option String
  protocol : Option String
  note : Option String

/-- The static table `self.connection_configs`, one profile per member. -/
def connection_configs : ConnectionType → ConnectionConfig
  | .UART =>
    ⟨[(.intPin 6, "TX"), (.intPin 7, "RX"), (.intPin 1, "VCC"), (.intPin 16, "GND")],
     "Standard UART Verbindung", some "115200", none, none, none⟩
  | .FTDI =>
    ⟨[(.intPin 6, "TXD"), (.intPin 7, "RXD"), (.intPin 1, "VCC"), (.intPin 16, "GND")],
     "FTDI USB-Serial Adapter", none, some "3.3V", none, none⟩
  | .DIRECT =>
    ⟨[(.intPin 8, "GPIO1"), (.intPin 9, "GPIO2"), (.intPin 12, "GPIO3"),
      (.intPin 1, "VCC"), (.intPin 16, "GND")],
     "Direkte GPIO Verbindung", none, none, none, some "Für custom Hardware"⟩
  | .USB =>
    ⟨[(.intPin 18, "5V"), (.intPin 16, "GND"),
      (.namedPin "USB_D+", "Data+"), (.namedPin "USB_D-", "Data-")],
     "USB Verbindung", none, none, some "USB 2.0 Full Speed", none⟩

/-- Python `self.connection_configs.get(x)`: hits exactly when `x` is one of
the four dict keys, i.e. a genuine `ConnectionType` member. -/
def connection_configs_get : PySel → Option ConnectionConfig
  | .ct c => some (connection_configs c)
  | .other _ => none

/-- One row of the pin-assignment section, the loop body of
`generate_ascii_pinout`: an `isinstance(pin, int)` key renders pin number,
role and catalog label (`"Unknown"` when the catalog lookup misses); any
other key renders name and role only. -/
def pinLine (p : PinRef) (role : String) : String :=
  match p with
  | .intPin n =>
    "║ Pin " ++ pyRJust (toString n) 2 ++ ": " ++ pyLJust role 10 ++ " → " ++
      pyLJust ((dictGet flipper_gpio_pins n).getD "Unknown") 25 ++ " ║"
  | .namedPin s => "║ " ++ s ++ ": " ++ pyLJust role 35 ++ " ║"

/-- The fixed GPIO-header art block of `generate_ascii_pinout`, identical
for every connection type. -/
def gpio_header_art : List String :=
  ["║                    Flipper Zero GPIO                    ║",
   "║    ┌─────────────────────────────────────────────┐    ║",
   "║    │  1  3  5  7  9 11 13 15 17              │    ║",
   "║    │  o  o  o  o  o  o  o  o  o               │    ║",
   "║    │  o  o  o  o  o  o  o  o  o               │    ║",
   "║    │  2  4  6  8 10 12 14 16 18              │    ║",
   "║    └─────────────────────────────────────────────┘    ║"]

/-- The trailing metadata section of `generate_ascii_pinout`: one line per
present metadata key, in the fixed source order baudrate, voltage,
protocol, note. -/
def metaLines (cfg : ConnectionConfig) : List String :=
  (match cfg.baudrate with
   | some b => ["║ Baudrate: " ++ pyLJust b 46 ++ " ║"]
   | none => []) ++
  (match cfg.voltage with
   | some v => ["║ Spannung: " ++ pyLJust v 46 ++ " ║"]
   | none => []) ++
  (match cfg.protocol with
   | some p => ["║ Protokoll: " ++ pyLJust p 45 ++ " ║"]
   | none => []) ++
  (match cfg.note with
   | some x => ["║ Hinweis: " ++ pyLJust x 47 ++ " ║"]
   | none => [])

/-- The `ascii_art` line list built by `generate_ascii_pinout` for a genuine
member `c` at display width `w`, in the exact append order of the source. -/
def ascii_pinout_lines (c : ConnectionType) (w : Nat) : List String :=
  ["╔" ++ strRepeat "═" w ++ "╗",
   "║" ++ pyCenter ("Flipper Zero " ++ pyUpper c.value ++ " Pinout") w ++ "║",
   "║" ++ pyCenter (connection_configs c).description w ++ "║",
   "╠" ++ strRepeat "═" w ++ "╣"] ++
  gpio_header_art ++
  ["╠" ++ strRepeat "═" w ++ "╣",
   "║                    Pin-Zuordnungen                     ║",
   "╠" ++ strRepeat "═" w ++ "╣"] ++
  (connection_configs c).pins.map (fun pr => pinLine pr.1 pr.2) ++
  (["╠" ++ strRepeat "═" w ++ "╣"] ++
   metaLines (connection_configs c) ++
   ["╚" ++ strRepeat "═" w ++ "╝"])

/-- `PinoutGenerator.generate_ascii_pinout(connection_type, width)`; the
Python default width is 60. A missed config lookup raises `ValueError`
before any line is produced. -/
def generate_ascii_pinout (sel : PySel) (w : Nat) : Except String String :=
  match connection_configs_get sel, sel with
  | none, _ => Except.error "Unbekannter Verbindungstyp"
  | some _, .ct c => Except.ok (joinLines (ascii_pinout_lines c w))
  | some _, .other _ => Except.error "Unbekannter Verbindungstyp"

/-- The `diagram` line list built by `generate_connection_diagram` for a
genuine member, exactly the literal per-kind bodies of the source. -/
def connection_diagram_lines (c : ConnectionType) : List String :=
  ["\n" ++ pyUpper c.value ++ " Verbindungsdiagramm:",
   strRepeat "=" 50] ++
  (match c with
   | .UART =>
     ["Flipper Zero    ←→    UART Device",
      "Pin 6 (TX)      ←→    RX",
      "Pin 7 (RX)      ←→    TX",
      "Pin 1 (VCC)     ←→    VCC (3.3V)",
      "Pin 16 (GND)    ←→    GND",
      "",
      "Baudrate: 115200, 8N1"]
   | .FTDI =>
     ["Flipper Zero    ←→    FTDI Adapter    ←→    USB",
      "Pin 6 (TX)      ←→    RXD",
      "Pin 7 (RX)      ←→    TXD",
      "Pin 1 (VCC)     ←→    VCC (3.3V)",
      "Pin 16 (GND)    ←→    GND",
      "",
      "⚠️  FTDI auf 3.3V einstellen!"]
   | .DIRECT =>
     ["Flipper Zero    ←→    Custom Hardware",
      "Pin 8 (PC1)     ←→    GPIO Input/Output",
      "Pin 9 (PC0)     ←→    GPIO Input/Output",
      "Pin 12 (PA15)   ←→    GPIO Input/Output",
      "Pin 1 (VCC)     ←→    Power (3.3V)",
      "Pin 16 (GND)    ←→    Ground",
      "",
      "⚠️  GPIO Level: 3.3V max!"]
   | .USB =>
     ["Flipper Zero USB-C    ←→    Host Device",
      "USB D+               ←→    Data+",
      "USB D-               ←→    Data-",
      "5V (Pin 18)         ←→    USB Power",
      "GND (Pin 16)        ←→    USB Ground",
      "",
      "USB 2.0 Full Speed (12 Mbps)"])

/-- `PinoutGenerator.generate_connection_diagram(connection_type)`: raises
`ValueError` on a missed config lookup, otherwise joins the literal body. -/
def generate_connection_diagram (sel : PySel) : Except String String :=
  match connection_configs_get sel, sel with
  | none, _ => Except.error "Unbekannter Verbindungstyp"
  | some _, .ct c => Except.ok (joinLines (connection_diagram_lines c))
  | some _, .other _ => Except.error "Unbekannter Verbindungstyp"

/-- `PinoutGenerator.get_pin_info(pin_number)`: a plain `dict.get`, so a
total function returning `none` outside the catalog. -/
def get_pin_info (pin_number : Int) : Option String :=
  dictGet flipper_gpio_pins pin_number

/-- `PinoutGenerator.list_available_connections()`: the `value` strings of
the members in definition order. -/
def list_available_connections : List String :=
  ConnectionType.all.map ConnectionType.value

/-- The fixed safety/usage notes block of
`generate_full_pinout_reference` (four bullet lines). -/
def safety_notes : List String :=
  ["║" ++ pyLJust "• GPIO Spannung: 3.3V (5V NICHT tolerant!)" 58 ++ "║",
   "║" ++ pyLJust "• Max. Strom pro Pin: 20mA" 58 ++ "║",
   "║" ++ pyLJust "• SWD Pins für Debugging verwenden" 58 ++ "║",
   "║" ++ pyLJust "• VCC ist 3.3V Ausgang (max. 100mA)" 58 ++ "║"]

/-- The `reference` line list of `generate_full_pinout_reference`, in the
exact append order of the source. -/
def full_reference_lines : List String :=
  ["╔" ++ strRepeat "═" 58 ++ "╗",
   "║" ++ pyStrCenter "Flipper Zero GPIO Komplette Pin-Referenz" 58 ++ "║",
   "╠" ++ strRepeat "═" 58 ++ "╣"] ++
  flipper_gpio_pins.map
    (fun pd => "║ Pin " ++ pyRJust (toString pd.1) 2 ++ ": " ++ pyLJust pd.2 46 ++ " ║") ++
  (["╠" ++ strRepeat "═" 58 ++ "╣",
    "║" ++ pyLJust "Wichtige Hinweise:" 58 ++ "║"] ++
   safety_notes ++
   ["╚" ++ strRepeat "═" 58 ++ "╝"])

/-- `PinoutGenerator.generate_full_pinout_reference()`: takes no input at
all (in particular no connection kind). -/
def generate_full_pinout_reference : String := joinLines full_reference_lines

/-- The CLI `main()` of `pinout_generator.py`, as a function from the
positional arguments to the printed lines and the process exit code.
Python `main` returns `None` on every path and the script exits normally,
so every branch carries exit code 0. The `except ValueError` branch prints
the enum constructor's message, which interpolates the (lowercased)
argument. -/
def pinout_main (args : List String) : List String × Nat :=
  match args with
  | [] =>
    (["Usage: python pinout_generator.py <connection_type>",
      "Available connection types: " ++ commaJoin list_available_connections,
      "\nOr use \x27full\x27 for complete pin reference"], 0)
  | arg :: _ =>
    if pyLower arg = "full" then
      ([generate_full_pinout_reference], 0)
    else
      match ConnectionType.fromValue (pyLower arg) with
      | some c =>
        ([joinLines (ascii_pinout_lines c 60),
          joinLines (connection_diagram_lines c)], 0)
      | none =>
        (["Fehler: \x27" ++ pyLower arg ++ "\x27 is not a valid ConnectionType",
          "Verfügbare Verbindungstypen: " ++ commaJoin list_available_connections], 0)

/-- Inserting `pinRefKnown` among the definitions: a profile key is "known"
when an integer key hits the catalog with a label other than the fallback;
named keys never consult the catalog. -/
def pinRefKnown : PinRef → Prop
  | .intPin n =>
    ((dictGet flipper_gpio_pins n).isSome = true) ∧
      (dictGet flipper_gpio_pins n).getD "Unknown" ≠ "Unknown"
  | .namedPin _ => True

instance : DecidablePred pinRefKnown := fun p =>
  match p with
  | .intPin n =>
    inferInstanceAs (Decidable (((dictGet flipper_gpio_pins n).isSome = true) ∧
      (dictGet flipper_gpio_pins n).getD "Unknown" ≠ "Unknown"))
  | .namedPin _ => inferInstanceAs (Decidable True)

/-- A string is a substring of itself. -/
theorem containsSubstr_self (t : String) : ContainsSubstr t t :=
  ⟨[], [], by simp⟩

/-- The middle factor of a three-way concatenation is a substring. -/
theorem containsSubstr_middle (p t q : String) : ContainsSubstr (p ++ t ++ q) t :=
  ⟨p.data, q.data, by simp [String.data_append]⟩

/-- Substring containment survives prepending. -/
theorem ContainsSubstr.append_left {s t : String} (u : String) (h : ContainsSubstr s t) :
    ContainsSubstr (u ++ s) t := by
  obtain ⟨p, q, hpq⟩ := h
  refine ⟨u.data ++ p, q, ?_⟩
  rw [String.data_append, ← hpq]
  simp [List.append_assoc]

/-- Substring containment survives appending. -/
theorem ContainsSubstr.append_right {s t : String} (u : String) (h : ContainsSubstr s t) :
    ContainsSubstr (s ++ u) t := by
  obtain ⟨p, q, hpq⟩ := h
  refine ⟨p, q ++ u.data, ?_⟩
  rw [String.data_append, ← hpq]
  simp [List.append_assoc]

/-- Anything contained in one line is contained in the joined text. -/
theorem joinLines_contains :
    ∀ {ls : List String} {l t : String}, l ∈ ls → ContainsSubstr l t →
      ContainsSubstr (joinLines ls) t := by
  intro ls
  induction ls with
  | nil => intro l t h; cases h
  | cons x xs ih =>
    intro l t hmem hc
    rcases List.mem_cons.mp hmem with h | h
    · subst h
      cases xs with
      | nil => exact hc
      | cons y ys => exact (hc.append_right "\n").append_right (joinLines (y :: ys))
    · cases xs with
      | nil => cases h
      | cons y ys => exact (ih h hc).append_left (x ++ "\n")

/-- A centered string is a substring of its framed line. -/
theorem containsSubstr_center (pre post s : String) (w : Nat) :
    ContainsSubstr (pre ++ pyCenter s w ++ post) s := by
  refine ⟨(pre ++ spaces ((w - s.length) / 2)).data,
    (spaces (w - s.length - (w - s.length) / 2) ++ post).data, ?_⟩
  simp [pyCenter, String.data_append, List.append_assoc]

/-- Every pin row of the pin-assignment section carries its role label. -/
theorem pinLine_contains_role (p : PinRef) (role : String) :
    ContainsSubstr (pinLine p role) role := by
  cases p with
  | intPin n =>
    refine ⟨("║ Pin " ++ pyRJust (toString n) 2 ++ ": ").data,
      (spaces (10 - role.length) ++ " → " ++
        pyLJust ((dictGet flipper_gpio_pins n).getD "Unknown") 25 ++ " ║").data, ?_⟩
    simp [pinLine, pyLJust, String.data_append, List.append_assoc]
  | namedPin s =>
    refine ⟨("║ " ++ s ++ ": ").data, (spaces (35 - role.length) ++ " ║").data, ?_⟩
    simp [pinLine, pyLJust, String.data_append, List.append_assoc]

/-- The fourth of five concatenated chunks is an infix of the whole. -/
theorem isInfix_chunk {α : Type} (a b c d e : List α) : d <:+: a ++ b ++ c ++ d ++ e :=
  ⟨a ++ b ++ c, e, by simp [List.append_assoc]⟩

/-- Every profile row renders into the boxed output's line list. -/
theorem pinLine_mem_ascii_lines (c : ConnectionType) (w : Nat) (pr : PinRef × String)
    (hmem : pr ∈ (connection_configs c).pins) :
    pinLine pr.1 pr.2 ∈ ascii_pinout_lines c w := by
  have hmap : pinLine pr.1 pr.2 ∈
      (connection_configs c).pins.map (fun q => pinLine q.1 q.2) :=
    List.mem_map_of_mem _ hmem
  unfold ascii_pinout_lines
  simp only [List.mem_append]
  tauto

/-- Claim C1: a render call on any value outside the four defined members
fails with the unknown-connection-kind error and produces no output, while
each of the four members renders successfully in both operations. -/
theorem render_raises_iff_unknown_kind :
    (∀ (v : String) (w : Nat),
      (∃ e, generate_ascii_pinout (PySel.other v) w = Except.error e) ∧
        ∃ e, generate_connection_diagram (PySel.other v) = Except.error e) ∧
    ∀ (c : ConnectionType) (w : Nat),
      (∃ s, generate_ascii_pinout (PySel.ct c) w = Except.ok s) ∧
        ∃ s, generate_connection_diagram (PySel.ct c) = Except.ok s :=
  ⟨fun _ _ => ⟨⟨_, rfl⟩, ⟨_, rfl⟩⟩, fun _ _ => ⟨⟨_, rfl⟩, ⟨_, rfl⟩⟩⟩

/-- Claim C2: for every kind and width the boxed pinout contains the kind's
description and every role label of its profile, and the pin-assignment
rows appear contiguously in exactly the profile's insertion order. -/
theorem boxed_pinout_description_and_roles (c : ConnectionType) (w : Nat) :
    ((connection_configs c).pins.map (fun q => pinLine q.1 q.2)) <:+:
        ascii_pinout_lines c w ∧
    ∃ out, generate_ascii_pinout (PySel.ct c) w = Except.ok out ∧
      ContainsSubstr out (connection_configs c).description ∧
      ∀ pr ∈ (connection_configs c).pins, ContainsSubstr out pr.2 := by
  constructor
  · unfold ascii_pinout_lines
    exact isInfix_chunk _ _ _ _ _
  · refine ⟨joinLines (ascii_pinout_lines c w), rfl, ?_, ?_⟩
    · exact joinLines_contains (by simp [ascii_pinout_lines])
        (containsSubstr_center "║" "║" (connection_configs c).description w)
    · intro pr hpr
      exact joinLines_contains (pinLine_mem_ascii_lines c w pr hpr)
        (pinLine_contains_role pr.1 pr.2)

/-- Witness for C2 at the UART profile's first row. -/
theorem boxed_pinout_description_and_roles_inst :
    ∃ out, generate_ascii_pinout (PySel.ct ConnectionType.UART) 60 = Except.ok out ∧
      ContainsSubstr out "TX" := by
  obtain ⟨hinf, out, hok, hdesc, hroles⟩ :=
    boxed_pinout_description_and_roles ConnectionType.UART 60
  exact ⟨out, hok, hroles (PinRef.intPin 6, "TX") (by decide)⟩

/-- Claim C3: an integer-keyed profile entry renders as pin number, role and
catalog label, degrading to the label "Unknown" (not an error) on a catalog
miss; a named entry renders name and role only, with no catalog lookup; and
every profile entry produces such a row in the boxed output. -/
theorem pin_row_rendering_cases :
    (∀ (n : Int) (role : String), dictGet flipper_gpio_pins n = none →
      pinLine (PinRef.intPin n) role =
        "║ Pin " ++ pyRJust (toString n) 2 ++ ": " ++ pyLJust role 10 ++ " → " ++
          pyLJust "Unknown" 25 ++ " ║") ∧
    (∀ (n : Int) (role lbl : String), dictGet flipper_gpio_pins n = some lbl →
      pinLine (PinRef.intPin n) role =
        "║ Pin " ++ pyRJust (toString n) 2 ++ ": " ++ pyLJust role 10 ++ " → " ++
          pyLJust lbl 25 ++ " ║") ∧
    (∀ (s role : String),
      pinLine (PinRef.namedPin s) role = "║ " ++ s ++ ": " ++ pyLJust role 35 ++ " ║") ∧
    ∀ (c : ConnectionType) (w : Nat) (pr : PinRef × String),
      pr ∈ (connection_configs c).pins → pinLine pr.1 pr.2 ∈ ascii_pinout_lines c w := by
  refine ⟨?_, ?_, ?_, ?_⟩
  · intro n role h
    simp [pinLine, h]
  · intro n role lbl h
    simp [pinLine, h]
  · intro s role
    simp [pinLine]
  · intro c w pr hmem
    exact pinLine_mem_ascii_lines c w pr hmem

/-- Witness for C3: the catalog miss at index 9999 degrades to "Unknown",
the hit at index 6 yields the catalog label, a named row for the USB data
line, and the UART row for pin 6 lands in the rendered lines. -/
theorem pin_row_rendering_cases_inst :
    pinLine (PinRef.intPin 9999) "TX" =
      "║ Pin " ++ pyRJust (toString (9999 : Int)) 2 ++ ": " ++ pyLJust "TX" 10 ++ " → " ++
        pyLJust "Unknown" 25 ++ " ║" ∧
    pinLine (PinRef.intPin 6) "TX" =
      "║ Pin " ++ pyRJust (toString (6 : Int)) 2 ++ ": " ++ pyLJust "TX" 10 ++ " → " ++
        pyLJust "PB2 (USART_TX)" 25 ++ " ║" ∧
    pinLine (PinRef.namedPin "USB_D+") "Data+" =
      "║ " ++ "USB_D+" ++ ": " ++ pyLJust "Data+" 35 ++ " ║" ∧
    pinLine (PinRef.intPin 6, "TX").1 (PinRef.intPin 6, "TX").2 ∈
      ascii_pinout_lines ConnectionType.UART 60 :=
  ⟨pin_row_rendering_cases.1 9999 "TX" (by decide),
   pin_row_rendering_cases.2.1 6 "TX" "PB2 (USART_TX)" (by decide),
   pin_row_rendering_cases.2.2.1 "USB_D+" "Data+",
   pin_row_rendering_cases.2.2.2 ConnectionType.UART 60 (PinRef.intPin 6, "TX") (by decide)⟩

/-- Claim C4: `get_pin_info` is total — it returns the power-rail label at
index 1, and `none` at every index outside the 1..18 catalog (9999 in
particular), never failing. -/
theorem get_pin_info_lookup :
    get_pin_info 1 = some "VCC (3.3V)" ∧ get_pin_info 9999 = none ∧
    ∀ n : Int, n < 1 ∨ 18 < n → get_pin_info n = none := by
  refine ⟨rfl, rfl, ?_⟩
  intro n hn
  have hfind : flipper_gpio_pins.find? (fun p => p.1 == n) = none := by
    rw [List.find?_eq_none]
    intro x hx
    have hx1 : x.1 ∈ flipper_gpio_pins.map Prod.fst := List.mem_map_of_mem _ hx
    simp only [flipper_gpio_pins, List.map, List.mem_cons, List.not_mem_nil, or_false] at hx1
    simp only [beq_iff_eq]
    intro heq
    rw [heq] at hx1
    rcases hn with h | h <;> omega
  show (flipper_gpio_pins.find? (fun p => p.1 == n)).map (fun p => p.2) = none
  rw [hfind]
  rfl

/-- Witness for C4 at the out-of-catalog index 9999. -/
theorem get_pin_info_lookup_inst : get_pin_info 9999 = none :=
  get_pin_info_lookup.2.2 9999 (Or.inr (by decide))

set_option maxRecDepth 8192 in
/-- Claim C5: the UART wiring diagram succeeds, its point-to-point rows are
exactly the four pairings TX-to-RX, RX-to-TX, VCC-to-VCC and GND-to-GND,
and the text carries the "115200" and "8N1" annotations. -/
theorem uart_wiring_diagram_content :
    ∃ out, generate_connection_diagram (PySel.ct ConnectionType.UART) = Except.ok out ∧
      (connection_diagram_lines ConnectionType.UART).filter
          (fun l => l.take 4 == "Pin ") =
        ["Pin 6 (TX)      ←→    RX",
         "Pin 7 (RX)      ←→    TX",
         "Pin 1 (VCC)     ←→    VCC (3.3V)",
         "Pin 16 (GND)    ←→    GND"] ∧
      ContainsSubstr out "115200" ∧ ContainsSubstr out "8N1" := by
  refine ⟨joinLines (connection_diagram_lines ConnectionType.UART), rfl, ?_, ?_, ?_⟩
  · decide
  · decide
  · decide

set_option maxRecDepth 8192 in
/-- Claim C6: the full pin reference lists a row for every catalog index
from 1 to 18, each exactly once and in strictly ascending order, and that
row block is followed by the heading and the fixed four safety notes. -/
theorem full_reference_pin_listing :
    full_reference_lines.filter (fun l => l.take 5 == "║ Pin") =
      flipper_gpio_pins.map
        (fun pd => "║ Pin " ++ pyRJust (toString pd.1) 2 ++ ": " ++ pyLJust pd.2 46 ++ " ║") ∧
    flipper_gpio_pins.map Prod.fst =
      [1, 2, 3, 4, 5, 6, 7, 8, 9, 10, 11, 12, 13, 14, 15, 16, 17, 18] ∧
    List.Pairwise (fun a b => a < b) (flipper_gpio_pins.map Prod.fst) ∧
    safety_notes.length = 4 ∧
    (flipper_gpio_pins.map
        (fun pd => "║ Pin " ++ pyRJust (toString pd.1) 2 ++ ": " ++ pyLJust pd.2 46 ++ " ║") ++
      ["╠" ++ strRepeat "═" 58 ++ "╣", "║" ++ pyLJust "Wichtige Hinweise:" 58 ++ "║"] ++
      safety_notes) <:+: full_reference_lines ∧
    generate_full_pinout_reference = joinLines full_reference_lines := by
  refine ⟨by decide, by decide, by decide, rfl, ?_, rfl⟩
  refine ⟨["╔" ++ strRepeat "═" 58 ++ "╗",
    "║" ++ pyStrCenter "Flipper Zero GPIO Komplette Pin-Referenz" 58 ++ "║",
    "╠" ++ strRepeat "═" 58 ++ "╣"], ["╚" ++ strRepeat "═" 58 ++ "╝"], ?_⟩
  simp [full_reference_lines, List.append_assoc]

set_option maxRecDepth 8192 in
/-- Claim C7: every integer pin reference of every one of the four
connection profiles is a key of the 18-entry catalog, so the "Unknown"
fallback of the row renderer is never selected for a defined kind. -/
theorem profile_pins_exist_in_catalog :
    ∀ (c : ConnectionType), ∀ pr ∈ (connection_configs c).pins, ∀ n : Int,
      pr.1 = PinRef.intPin n →
        (dictGet flipper_gpio_pins n).isSome = true ∧
        (dictGet flipper_gpio_pins n).getD "Unknown" ≠ "Unknown" := by
  have hall : ∀ (c : ConnectionType), ∀ pr ∈ (connection_configs c).pins,
      pinRefKnown pr.1 := by
    intro c
    cases c <;> decide
  intro c pr hmem n hn
  have h := hall c pr hmem
  rw [hn] at h
  exact h

/-- Witness for C7 at the UART profile's TX entry, pin 6. -/
theorem profile_pins_exist_in_catalog_inst :
    (dictGet flipper_gpio_pins 6).isSome = true ∧
    (dictGet flipper_gpio_pins 6).getD "Unknown" ≠ "Unknown" :=
  profile_pins_exist_in_catalog ConnectionType.UART (PinRef.intPin 6, "TX") (by decide) 6 rfl

/-- Claim C8: the boxed pinout is a pure function of the (kind, width)
pair — two calls with equal arguments return identical text, and the line
count of the rendered block agrees call for call. -/
theorem boxed_pinout_deterministic (sa sb : PySel) (wa wb : Nat)
    (hs : sa = sb) (hw : wa = wb) :
    generate_ascii_pinout sa wa = generate_ascii_pinout sb wb ∧
    ∀ c : ConnectionType,
      (ascii_pinout_lines c wa).length = (ascii_pinout_lines c wb).length := by
  subst hs
  subst hw
  exact ⟨rfl, fun _ => rfl⟩

/-- Witness for C8 at the UART kind and the default width 60. -/
theorem boxed_pinout_deterministic_inst :
    generate_ascii_pinout (PySel.ct ConnectionType.UART) 60 =
      generate_ascii_pinout (PySel.ct ConnectionType.UART) 60 :=
  (boxed_pinout_deterministic (PySel.ct ConnectionType.UART)
    (PySel.ct ConnectionType.UART) 60 60 rfl rfl).1

set_option maxRecDepth 16384 in
/-- Counterexample to C9 as stated: for the invocation with the argument
"XYZ" — neither "full" nor a kind name, case-insensitively — the program
exits 0 but its error output does not contain the invalid value "XYZ"; it
contains only the lowercased form "xyz" produced before validation. -/
theorem cli_error_value_lowercased :
    pyLower "XYZ" ≠ "full" ∧ ConnectionType.fromValue (pyLower "XYZ") = none ∧
    (pinout_main ["XYZ"]).2 = 0 ∧
    ¬ ContainsSubstr (joinLines (pinout_main ["XYZ"]).1) "XYZ" ∧
    ContainsSubstr (joinLines (pinout_main ["XYZ"]).1) "xyz" :=
  ⟨by decide, by decide, rfl, by decide, by decide⟩

/-- Claim C9 as amended: for every invocation whose lowercased single
argument is neither "full" nor a kind value, the CLI prints an error
containing the lowercased invalid value together with all four valid kind
names, and exits with code 0. -/
theorem cli_error_reports_kinds (a : String)
    (hfull : pyLower a ≠ "full")
    (hkind : ConnectionType.fromValue (pyLower a) = none) :
    (pinout_main [a]).2 = 0 ∧
    ContainsSubstr (joinLines (pinout_main [a]).1) (pyLower a) ∧
    ContainsSubstr (joinLines (pinout_main [a]).1) "uart" ∧
    ContainsSubstr (joinLines (pinout_main [a]).1) "ftdi" ∧
    ContainsSubstr (joinLines (pinout_main [a]).1) "direct" ∧
    ContainsSubstr (joinLines (pinout_main [a]).1) "usb" := by
  have hout : pinout_main [a] =
      (["Fehler: \x27" ++ pyLower a ++ "\x27 is not a valid ConnectionType",
        "Verfügbare Verbindungstypen: " ++ commaJoin list_available_connections], 0) := by
    simp only [pinout_main]
    rw [if_neg hfull, hkind]
  rw [hout]
  refine ⟨rfl, ?_, ?_, ?_, ?_, ?_⟩
  · exact ((containsSubstr_middle "Fehler: \x27" (pyLower a)
      "\x27 is not a valid ConnectionType").append_right "\n").append_right
        (joinLines ["Verfügbare Verbindungstypen: " ++ commaJoin list_available_connections])
  all_goals
    exact ContainsSubstr.append_left _ (by decide)

set_option maxRecDepth 16384 in
/-- Witness for the amended C9 at the lowercase invalid argument "xyz". -/
theorem cli_error_reports_kinds_inst :
    (pinout_main ["xyz"]).2 = 0 ∧
    ContainsSubstr (joinLines (pinout_main ["xyz"]).1) (pyLower "xyz") ∧
    ContainsSubstr (joinLines (pinout_main ["xyz"]).1) "uart" ∧
    ContainsSubstr (joinLines (pinout_main ["xyz"]).1) "ftdi" ∧
    ContainsSubstr (joinLines (pinout_main ["xyz"]).1) "direct" ∧
    ContainsSubstr (joinLines (pinout_main ["xyz"]).1) "usb" :=
  cli_error_reports_kinds "xyz" (by decide) (by decide)

/-- Claim C10: the CLI lowercases its positional argument before any
comparison, so every case variant of "full" selects the full pin
reference and exits 0, exactly like the lowercase keyword. -/
theorem cli_full_keyword_case_insensitive (s : String) (h : pyLower s = "full") :
    pinout_main [s] = ([generate_full_pinout_reference], 0) := by
  simp only [pinout_main]
  rw [if_pos h]

/-- Witness for C10 at the uppercase variant "FULL". -/
theorem cli_full_keyword_case_insensitive_inst :
    pinout_main ["FULL"] = ([generate_full_pinout_reference], 0) :=
  cli_full_keyword_case_insensitive "FULL" (by decide)
